import Mathlib

/-!
Shallow embedding of the gesture-to-intent pipeline of the AirType hand-typing
application (src/App.tsx, src/services/geminiService.ts,
src/components/VirtualKeyboard.tsx).

Coordinates are rationals.  The source's pinch test
`Math.sqrt(dx*dx + dy*dy) < pinchThreshold` is embedded as the equivalent
square comparison `dx^2 + dy^2 < pinchThreshold^2`; the two agree for every
nonnegative threshold, and the settings UI confines the threshold to
[0.01, 0.1] (default 0.04).
-/

/-- One normalized hand landmark (an entry of `results.multiHandLandmarks[0]`). -/
structure Landmark where
  x : ℚ
  y : ℚ
  z : ℚ
  deriving DecidableEq

/-- A detected hand: 21 ordered landmarks, indexed as in MediaPipe
(4 = thumb tip, 8 = index tip, 12 = middle tip, 16 = ring tip, 20 = pinky tip;
6/10/14/18 the corresponding PIP joints). -/
abbrev Hand := Fin 21 → Landmark

/-- A screen-space point (`{ x, y }` objects in App.tsx). -/
structure Point where
  x : ℚ
  y : ℚ
  deriving DecidableEq

/-- The tunable settings object of App.tsx. -/
structure Settings where
  cursorSmoothing : ℚ
  pinchThreshold : ℚ
  extensionThreshold : ℚ
  deriving DecidableEq

/-- Defaults from App.tsx: smoothing 0.4, pinch threshold 0.04, extension bias 0. -/
def defaultSettings : Settings := ⟨2/5, 1/25, 0⟩

/-- The `gestureMode` state: 'move' | 'click' | 'wait' (the spec's MOVE/CLICK/IDLE). -/
inductive GestureMode where
  | move
  | click
  | wait
  deriving DecidableEq

/-- `isExtended(tipIdx, pipIdx)`:
`landmarks[tipIdx].y < landmarks[pipIdx].y - settings.extensionThreshold`. -/
def isExtended (lm : Hand) (extTh : ℚ) (tip pip : Fin 21) : Bool :=
  decide ((lm tip).y < (lm pip).y - extTh)

/-- `indexUp = isExtended(8, 6)`. -/
def indexUp (lm : Hand) (e : ℚ) : Bool := isExtended lm e 8 6

/-- `middleUp = isExtended(12, 10)`. -/
def middleUp (lm : Hand) (e : ℚ) : Bool := isExtended lm e 12 10

/-- `ringUp = isExtended(16, 14)`. -/
def ringUp (lm : Hand) (e : ℚ) : Bool := isExtended lm e 16 14

/-- `pinkyUp = isExtended(20, 18)`. -/
def pinkyUp (lm : Hand) (e : ℚ) : Bool := isExtended lm e 20 18

/-- `extendedFingers`: how many of index/middle/ring/pinky are extended. -/
def extendedFingers (lm : Hand) (e : ℚ) : Nat :=
  (if indexUp lm e then 1 else 0) + (if middleUp lm e then 1 else 0) +
    (if ringUp lm e then 1 else 0) + (if pinkyUp lm e then 1 else 0)

/-- Squared thumb-tip-to-index-tip distance (`dx*dx + dy*dy` in App.tsx). -/
def pinchDistSq (lm : Hand) : ℚ :=
  ((lm 8).x - (lm 4).x) ^ 2 + ((lm 8).y - (lm 4).y) ^ 2

/-- `isPinchGesture = distance < settings.pinchThreshold`, embedded via squares
(see the file header). -/
def isPinchGesture (lm : Hand) (t : ℚ) : Bool :=
  decide (pinchDistSq lm < t ^ 2)

/-- `isTwoFingerGesture = indexUp && middleUp && !ringUp && !pinkyUp`. -/
def isTwoFingerGesture (lm : Hand) (e : ℚ) : Bool :=
  indexUp lm e && middleUp lm e && !ringUp lm e && !pinkyUp lm e

/-- `isOpenHand = extendedFingers >= 3`. -/
def isOpenHand (lm : Hand) (e : ℚ) : Bool :=
  decide (3 ≤ extendedFingers lm e)

/-- Result of the per-frame mode logic of App.tsx: the gesture mode written by
`setGestureMode`, together with the two local flags `shouldUpdateCursor` and
`shouldTriggerClick`. -/
structure GestureOut where
  mode : GestureMode
  shouldUpdateCursor : Bool
  shouldTriggerClick : Bool
  deriving DecidableEq

/-- The mode decision of `onResults`:
open hand and no pinch ⇒ move (update cursor); else pinch or two-finger ⇒ click
(trigger click, park cursor); else wait. -/
def classify (s : Settings) (lm : Hand) : GestureOut :=
  if isOpenHand lm s.extensionThreshold && !isPinchGesture lm s.pinchThreshold then
    ⟨GestureMode.move, true, false⟩
  else if isPinchGesture lm s.pinchThreshold || isTwoFingerGesture lm s.extensionThreshold then
    ⟨GestureMode.click, false, true⟩
  else
    ⟨GestureMode.wait, false, false⟩

/-- Raw pointer position: `x = (1 - indexTip.x) * innerWidth`,
`y = indexTip.y * innerHeight` (x mirrored). -/
def rawCursor (lm : Hand) (w h : ℚ) : Point :=
  ⟨(1 - (lm 8).x) * w, (lm 8).y * h⟩

/-- The cursor-filter update of App.tsx: first update sets the accumulator to the
raw point; later updates apply `acc += (raw - acc) * smoothFactor` per coordinate. -/
def smoothUpdate (α : ℚ) (acc : Option Point) (raw : Point) : Point :=
  match acc with
  | none => raw
  | some a => ⟨a.x + (raw.x - a.x) * α, a.y + (raw.y - a.y) * α⟩

/-- A key's screen rectangle (the DOMRect fields read by the hit test). -/
structure Rect where
  left : ℚ
  right : ℚ
  top : ℚ
  bottom : ℚ
  deriving DecidableEq

/-- Closed-interval containment used by the hit test:
`left <= x && x <= right && top <= y && y <= bottom`. -/
def containsB (r : Rect) (p : Point) : Bool :=
  decide (r.left ≤ p.x ∧ p.x ≤ r.right ∧ r.top ≤ p.y ∧ p.y ≤ r.bottom)

/-- The hit-test loop of `onResults`: walk the key rectangles in order and
return the first whose closed bounds contain the point (`break` on first hit). -/
def hitTest (rects : List (String × Rect)) (p : Point) : Option String :=
  match rects with
  | [] => none
  | kr :: rest => if containsB kr.2 p then some kr.1 else hitTest rest p

/-- The per-frame state touched by `onResults`: the smoothing accumulator
`cursorRef.current`, and the React states `cursor`, `isPinching`,
`gestureMode`, `hoveredKey`. -/
structure FrameState where
  cursorAcc : Option Point
  cursor : Option Point
  isPinching : Bool
  gestureMode : GestureMode
  hoveredKey : Option String
  deriving DecidableEq

/-- One pass of `onResults` over the gesture pipeline state.  With no landmarks
the frame clears `cursor`, `hoveredKey`, `isPinching` and sets mode to wait,
leaving the accumulator alone.  With landmarks it classifies the gesture,
updates the accumulator only in move mode, displays the accumulator if set and
otherwise the raw point (`cursorRef.current ? {...cursorRef.current} : {x, y}`),
and hit-tests the displayed point. -/
def processFrame (s : Settings) (rects : List (String × Rect)) (w h : ℚ)
    (st : FrameState) (frame : Option Hand) : FrameState :=
  match frame with
  | none =>
    { st with
        cursor := none
        hoveredKey := none
        isPinching := false
        gestureMode := GestureMode.wait }
  | some lm =>
    let raw := rawCursor lm w h
    let g := classify s lm
    let acc :=
      if g.shouldUpdateCursor then some (smoothUpdate s.cursorSmoothing st.cursorAcc raw)
      else st.cursorAcc
    let smoothed := match acc with | some a => a | none => raw
    { cursorAcc := acc
      cursor := some smoothed
      isPinching := g.shouldTriggerClick
      gestureMode := g.mode
      hoveredKey := hitTest rects smoothed }

/-- Discrete events derived from the clicking boolean by the edge-detector
effect around `prevPinchRef`. -/
inductive ClickEvent where
  | press (keyId : String)
  | release
  deriving DecidableEq

/-- One run of the edge-detector effect:
`if (isPinching && !prevPinchRef.current && hoveredKey) { press(hoveredKey) }
else if (!isPinching && prevPinchRef.current) { release }`.
A rising edge with no hovered key emits nothing (the `else if` then also fails,
since `isPinching` is true). -/
def edgeStepEvents (prev clicking : Bool) (hovered : Option String) : List ClickEvent :=
  if clicking && !prev then
    match hovered with
    | some k => [ClickEvent.press k]
    | none => []
  else if !clicking && prev then [ClickEvent.release]
  else []

/-- Events emitted over a frame sequence; each frame supplies the clicking flag
and the currently hovered key, and `prevPinchRef.current` is updated to the
frame's clicking flag afterwards. -/
def edgeEvents (prev : Bool) : List (Bool × Option String) → List ClickEvent
  | [] => []
  | f :: rest => edgeStepEvents prev f.1 f.2 ++ edgeEvents f.1 rest

/-- Number of press events in an event list. -/
def pressCount (evs : List ClickEvent) : Nat :=
  evs.countP fun e => match e with | ClickEvent.press _ => true | ClickEvent.release => false

/-- Number of release events in an event list. -/
def releaseCount (evs : List ClickEvent) : Nat :=
  evs.countP fun e => match e with | ClickEvent.press _ => false | ClickEvent.release => true

/-- Number of false-to-true transitions of the clicking flag, starting from a
given previous value.  Starting from `false`, each maximal contiguous true-run
begins at exactly one such transition, so this is the number of true-runs. -/
def risingEdges (prev : Bool) : List Bool → Nat
  | [] => 0
  | b :: rest => (if b && !prev then 1 else 0) + risingEdges b rest

/-- Number of true-to-false transitions of the clicking flag.  Each maximal
run of false frames that follows a true-run begins at exactly one such
transition, so this is the number of such false-runs. -/
def fallingEdges (prev : Bool) : List Bool → Nat
  | [] => 0
  | b :: rest => (if !b && prev then 1 else 0) + fallingEdges b rest

/-- Number of maximal contiguous true-runs in a boolean sequence, counted
directly: a run is entered at a true head and left at the next false. -/
def trueRuns : List Bool → Nat
  | [] => 0
  | false :: rest => trueRuns rest
  | true :: rest => 1 + trueRuns (rest.dropWhile (· == true))
termination_by l => l.length
decreasing_by
  · simp
  · exact Nat.lt_succ_of_le (List.dropWhile_suffix _).length_le

/-- Holds when a key is hovered at every frame where the clicking flag rises. -/
def hoverAtRising (prev : Bool) : List (Bool × Option String) → Bool
  | [] => true
  | f :: rest => (if f.1 && !prev then f.2.isSome else true) && hoverAtRising f.1 rest

/-- The key ids and labels of `ROWS` in VirtualKeyboard.tsx, flattened in row
order; a key's DOM text content is its label. -/
def keyRows : List (String × String) :=
  [("1", "1"), ("2", "2"), ("3", "3"), ("4", "4"), ("5", "5"), ("6", "6"),
   ("7", "7"), ("8", "8"), ("9", "9"), ("0", "0"), ("backspace", "⌫"),
   ("q", "Q"), ("w", "W"), ("e", "E"), ("r", "R"), ("t", "T"), ("y", "Y"),
   ("u", "U"), ("i", "I"), ("o", "O"), ("p", "P"),
   ("a", "A"), ("s", "S"), ("d", "D"), ("f", "F"), ("g", "G"), ("h", "H"),
   ("j", "J"), ("k", "K"), ("l", "L"), ("enter", "ENTER"),
   ("shift", "⇧"), ("z", "Z"), ("x", "X"), ("c", "C"), ("v", "V"),
   ("b", "B"), ("n", "N"), ("m", "M"), (",", ","), (".", "."),
   ("clear", "CLR"), ("space", "SPACE"), ("ai-fix", "✨ AI FIX")]

/-- The label lookup performed by the default branch of `handleKeyPress`
(`document.querySelector` on `data-key-id` followed by `textContent`);
an id with no rendered key yields nothing. -/
def keyLabel (keyId : String) : Option String :=
  (keyRows.find? fun kv => kv.1 == keyId).map Prod.snd

/-- JS `label.toLowerCase()`: lowercase every character.  Written over the
character list (rather than through `String.map`'s position-based recursion)
so that concrete cases evaluate; the result is the same string. -/
def toLowerCase (s : String) : String := String.mk (s.data.map Char.toLower)

/-- The text-buffer effect of `handleKeyPress` in App.tsx.  The `ai-fix` branch
only issues an asynchronous correction request (modelled by `triggerAiFix` and
`correctText` below) and leaves the buffer unchanged until that request
resolves, so its immediate effect here is the identity. -/
def handleKeyPress (labels : String → Option String) (keyId : String)
    (text : String) : String :=
  if keyId = "backspace" then text.dropRight 1
  else if keyId = "space" then text ++ " "
  else if keyId = "enter" then text ++ "\n"
  else if keyId = "clear" then ""
  else if keyId = "ai-fix" then text
  else if keyId = "shift" then text
  else
    match labels keyId with
    | some label => if label.length = 1 then text ++ toLowerCase label else text
    | none => text

/-- Outcome of one call to the external text model: the thrown error, or the
optional `response.text`. -/
abbrev ServiceOutcome := Except Unit (Option String)

/-- correctText of geminiService.ts.  The external call's outcome is passed in
explicitly; the function is total (it returns a String and never an error),
embedding "never propagates an error to the caller".  Missing API key, a thrown
error, a missing `response.text`, and a whitespace-only response all fall back
to the input text (`response.text?.trim() || text`). -/
def correctText (apiKey : String) (outcome : ServiceOutcome) (text : String) : String :=
  if apiKey = "" then text
  else
    match outcome with
    | Except.error _ => text
    | Except.ok none => text
    | Except.ok (some s) => if s.trim = "" then text else s.trim

/-- autocompleteText of geminiService.ts; same shape as `correctText` but every
fallback is the empty string (`response.text?.trim() || ""`). -/
def autocompleteText (apiKey : String) (outcome : ServiceOutcome) (text : String) : String :=
  if apiKey = "" then ""
  else
    match outcome with
    | Except.error _ => ""
    | Except.ok none => ""
    | Except.ok (some s) => if s.trim = "" then "" else s.trim

/-- The in-flight bookkeeping visible in App.tsx: the `isProcessingAI` React
flag plus counters for how many external requests of each kind have been
issued so far. -/
structure AIState where
  isProcessingAI : Bool
  issuedFixes : Nat
  issuedCompletions : Nat
  deriving DecidableEq

/-- The synchronous start of the `ai-fix` branch of `handleKeyPress`:
`if (text.length > 0) { setIsProcessingAI(true); await correctText(text); ... }`.
The request is issued before anything awaits; no in-flight flag is consulted. -/
def triggerAiFix (text : String) (st : AIState) : AIState :=
  if 0 < text.length then
    { st with isProcessingAI := true, issuedFixes := st.issuedFixes + 1 }
  else st

/-- The synchronous start of the AI_AUTOCOMPLETE button's onClick handler:
`setIsProcessingAI(true); await autocompleteText(text); ...`.
No in-flight flag is consulted. -/
def triggerAutocomplete (st : AIState) : AIState :=
  { st with isProcessingAI := true, issuedCompletions := st.issuedCompletions + 1 }

/-- A hand with every landmark at (1/2, 1/2): no finger counts as extended and
thumb tip and index tip coincide, so the pinch test fires (a CLICK frame). -/
def flatHand : Hand := fun _ => ⟨1/2, 1/2, 0⟩

/-- A hand with the four finger tips above their PIP joints and the thumb far
from the index tip: four fingers extended, no pinch (a MOVE frame). -/
def openTestHand : Hand := fun i =>
  if i = 8 ∨ i = 12 ∨ i = 16 ∨ i = 20 then ⟨1/2, 1/4, 0⟩
  else if i = 4 then ⟨0, 9/10, 0⟩
  else ⟨1/2, 1/2, 0⟩

/-- A hand with no finger extended and the thumb far from the index tip:
neither open hand, pinch, nor two-finger gesture (an IDLE frame). -/
def idleTestHand : Hand := fun i =>
  if i = 4 then ⟨0, 0, 0⟩ else ⟨1/2, 1/2, 0⟩

/-- Pipeline state before any frame: accumulator unset, nothing displayed. -/
def initState : FrameState := ⟨none, none, false, GestureMode.wait, none⟩

/-- Pipeline state whose accumulator holds (100, 100). -/
def parkedState : FrameState :=
  ⟨some ⟨100, 100⟩, some ⟨100, 100⟩, false, GestureMode.wait, none⟩

/-- The classifier takes exactly one of its three branches. -/
theorem classify_cases (s : Settings) (lm : Hand) :
    classify s lm = ⟨GestureMode.move, true, false⟩ ∨
      classify s lm = ⟨GestureMode.click, false, true⟩ ∨
      classify s lm = ⟨GestureMode.wait, false, false⟩ := by
  unfold classify
  split
  · exact Or.inl rfl
  · split
    · exact Or.inr (Or.inl rfl)
    · exact Or.inr (Or.inr rfl)

/-- The cursor is updated on exactly the MOVE frames. -/
theorem classify_update_iff (s : Settings) (lm : Hand) :
    (classify s lm).shouldUpdateCursor = true ↔ (classify s lm).mode = GestureMode.move := by
  rcases classify_cases s lm with h | h | h <;> rw [h] <;> simp

/-- The click trigger fires on exactly the CLICK frames. -/
theorem classify_click_iff (s : Settings) (lm : Hand) :
    (classify s lm).shouldTriggerClick = true ↔ (classify s lm).mode = GestureMode.click := by
  rcases classify_cases s lm with h | h | h <;> rw [h] <;> simp

/-- Unfolding lemma: the accumulator after a landmark frame. -/
theorem processFrame_some_cursorAcc (s : Settings) (rects : List (String × Rect))
    (w h : ℚ) (st : FrameState) (lm : Hand) :
    (processFrame s rects w h st (some lm)).cursorAcc =
      if (classify s lm).shouldUpdateCursor then
        some (smoothUpdate s.cursorSmoothing st.cursorAcc (rawCursor lm w h))
      else st.cursorAcc := rfl

/-- Unfolding lemma: the gesture mode after a landmark frame. -/
theorem processFrame_some_gestureMode (s : Settings) (rects : List (String × Rect))
    (w h : ℚ) (st : FrameState) (lm : Hand) :
    (processFrame s rects w h st (some lm)).gestureMode = (classify s lm).mode := rfl

/-- Evaluation: `flatHand` classifies as CLICK (zero-distance pinch). -/
theorem classify_flatHand :
    classify defaultSettings flatHand = ⟨GestureMode.click, false, true⟩ := by
  simp [classify, isOpenHand, isPinchGesture, isTwoFingerGesture, indexUp, middleUp, ringUp,
    pinkyUp, isExtended, extendedFingers, pinchDistSq, flatHand, defaultSettings,
    decide_eq_true_eq] <;> norm_num

/-- Evaluation: `openTestHand` classifies as MOVE. -/
theorem classify_openTestHand :
    classify defaultSettings openTestHand = ⟨GestureMode.move, true, false⟩ := by
  simp [classify, isOpenHand, isPinchGesture, isTwoFingerGesture, indexUp, middleUp, ringUp,
    pinkyUp, isExtended, extendedFingers, pinchDistSq, openTestHand, defaultSettings,
    decide_eq_true_eq] <;> norm_num

/-- Evaluation: `openTestHand` has at least three fingers extended. -/
theorem openTestHand_open :
    3 ≤ extendedFingers openTestHand defaultSettings.extensionThreshold := by
  simp [extendedFingers, indexUp, middleUp, ringUp, pinkyUp, isExtended, openTestHand,
    defaultSettings, decide_eq_true_eq] <;> norm_num

/-- Evaluation: `openTestHand` is not pinching. -/
theorem openTestHand_noPinch :
    isPinchGesture openTestHand defaultSettings.pinchThreshold = false := by
  simp [isPinchGesture, pinchDistSq, openTestHand, defaultSettings,
    decide_eq_true_eq] <;> norm_num

/-- Evaluation: `flatHand` is pinching. -/
theorem flatHand_pinch :
    isPinchGesture flatHand defaultSettings.pinchThreshold = true := by
  simp [isPinchGesture, pinchDistSq, flatHand, defaultSettings,
    decide_eq_true_eq] <;> norm_num

/-- Evaluation: `idleTestHand` has no finger extended. -/
theorem idleTestHand_folded :
    extendedFingers idleTestHand defaultSettings.extensionThreshold = 0 := by
  simp [extendedFingers, indexUp, middleUp, ringUp, pinkyUp, isExtended, idleTestHand,
    defaultSettings, decide_eq_true_eq] <;> norm_num

/-- Evaluation: `idleTestHand` is not pinching. -/
theorem idleTestHand_noPinch :
    isPinchGesture idleTestHand defaultSettings.pinchThreshold = false := by
  simp [isPinchGesture, pinchDistSq, idleTestHand, defaultSettings,
    decide_eq_true_eq] <;> norm_num

/-- Evaluation: the index finger of `idleTestHand` is not extended. -/
theorem idleTestHand_indexDown :
    indexUp idleTestHand defaultSettings.extensionThreshold = false := by
  simp [indexUp, isExtended, idleTestHand, defaultSettings, decide_eq_true_eq] <;> norm_num

/-- C2: with landmarks present, the mode is MOVE when at least three of
index/middle/ring/pinky are extended and the thumb-to-index distance is not
below the pinch threshold; otherwise CLICK when that distance is below the
threshold or exactly index and middle are extended with ring and pinky not;
otherwise IDLE (wait); and the clicking flag is true exactly in CLICK mode.
With no landmarks the frame yields wait mode, clicking false and a null
cursor. -/
theorem classifier_mode_decision :
    (∀ (s : Settings) (lm : Hand),
      (3 ≤ extendedFingers lm s.extensionThreshold →
        isPinchGesture lm s.pinchThreshold = false →
        (classify s lm).mode = GestureMode.move) ∧
      (¬(3 ≤ extendedFingers lm s.extensionThreshold ∧
          isPinchGesture lm s.pinchThreshold = false) →
        (isPinchGesture lm s.pinchThreshold = true ∨
          (indexUp lm s.extensionThreshold = true ∧
            middleUp lm s.extensionThreshold = true ∧
            ringUp lm s.extensionThreshold = false ∧
            pinkyUp lm s.extensionThreshold = false)) →
        (classify s lm).mode = GestureMode.click) ∧
      (¬(3 ≤ extendedFingers lm s.extensionThreshold ∧
          isPinchGesture lm s.pinchThreshold = false) →
        ¬(isPinchGesture lm s.pinchThreshold = true ∨
          (indexUp lm s.extensionThreshold = true ∧
            middleUp lm s.extensionThreshold = true ∧
            ringUp lm s.extensionThreshold = false ∧
            pinkyUp lm s.extensionThreshold = false)) →
        (classify s lm).mode = GestureMode.wait) ∧
      ((classify s lm).shouldTriggerClick = true ↔
        (classify s lm).mode = GestureMode.click)) ∧
    (∀ (s : Settings) (rects : List (String × Rect)) (w h : ℚ) (st : FrameState),
      (processFrame s rects w h st none).gestureMode = GestureMode.wait ∧
      (processFrame s rects w h st none).isPinching = false ∧
      (processFrame s rects w h st none).cursor = none) := by
  constructor
  · intro s lm
    have hfirstiff :
        (isOpenHand lm s.extensionThreshold && !isPinchGesture lm s.pinchThreshold) = true ↔
          3 ≤ extendedFingers lm s.extensionThreshold ∧
            isPinchGesture lm s.pinchThreshold = false := by
      simp [isOpenHand, Bool.and_eq_true, Bool.not_eq_true']
    have hsecondiff :
        (isPinchGesture lm s.pinchThreshold || isTwoFingerGesture lm s.extensionThreshold)
            = true ↔
          isPinchGesture lm s.pinchThreshold = true ∨
            (indexUp lm s.extensionThreshold = true ∧
              middleUp lm s.extensionThreshold = true ∧
              ringUp lm s.extensionThreshold = false ∧
              pinkyUp lm s.extensionThreshold = false) := by
      simp [isTwoFingerGesture, Bool.or_eq_true, Bool.and_eq_true, Bool.not_eq_true']
      tauto
    refine ⟨?_, ?_, ?_, classify_click_iff s lm⟩
    · intro h1 h2
      unfold classify
      rw [if_pos (hfirstiff.2 ⟨h1, h2⟩)]
    · intro hnm hc
      unfold classify
      rw [if_neg fun hcond => hnm (hfirstiff.1 hcond), if_pos (hsecondiff.2 hc)]
    · intro hnm hnc
      unfold classify
      rw [if_neg fun hcond => hnm (hfirstiff.1 hcond),
        if_neg fun hcond => hnc (hsecondiff.1 hcond)]
  · intro s rects w h st
    exact ⟨rfl, rfl, rfl⟩

/-- Witness for C2: a four-finger open hand classifies as MOVE, a coincident
thumb and index tip as CLICK, a closed hand with no pinch as wait. -/
theorem classifier_mode_decision_witness :
    (classify defaultSettings openTestHand).mode = GestureMode.move ∧
    (classify defaultSettings flatHand).mode = GestureMode.click ∧
    (classify defaultSettings idleTestHand).mode = GestureMode.wait :=
  ⟨(classifier_mode_decision.1 defaultSettings openTestHand).1 openTestHand_open
      openTestHand_noPinch,
    (classifier_mode_decision.1 defaultSettings flatHand).2.1
      (by simp [flatHand_pinch]) (Or.inl flatHand_pinch),
    (classifier_mode_decision.1 defaultSettings idleTestHand).2.2.1
      (by simp [idleTestHand_folded])
      (by simp [idleTestHand_noPinch, idleTestHand_indexDown])⟩

/-- C4: a frame whose resulting mode is not MOVE — no-landmark frames
included — leaves the cursor accumulator exactly as it was (cursor parking). -/
theorem cursorAcc_parked (s : Settings) (rects : List (String × Rect)) (w h : ℚ)
    (st : FrameState) (frame : Option Hand)
    (hmode : (processFrame s rects w h st frame).gestureMode ≠ GestureMode.move) :
    (processFrame s rects w h st frame).cursorAcc = st.cursorAcc := by
  cases frame with
  | none => rfl
  | some lm =>
    have hmode' : (classify s lm).mode ≠ GestureMode.move := hmode
    have hupd : (classify s lm).shouldUpdateCursor = false := by
      rcases Bool.eq_false_or_eq_true (classify s lm).shouldUpdateCursor with h' | h'
      · exact absurd ((classify_update_iff s lm).1 h') hmode'
      · exact h'
    rw [processFrame_some_cursorAcc, hupd]
    rfl

/-- Witness for C4: a pinch (CLICK) frame leaves an accumulator holding
(100, 100) at (100, 100). -/
theorem cursorAcc_parked_witness :
    (processFrame defaultSettings [] 1000 1000 parkedState (some flatHand)).cursorAcc =
      some ⟨100, 100⟩ :=
  cursorAcc_parked defaultSettings [] 1000 1000 parkedState (some flatHand)
    (by rw [processFrame_some_gestureMode, classify_flatHand]; decide)

/-- C3 (amended): on a landmark frame the displayed cursor is a snapshot of the
post-frame accumulator when the accumulator is set, and otherwise this frame's
raw cursor position (not null); on a no-landmark frame the displayed cursor is
null regardless of the accumulator. -/
theorem cursor_output_snapshot :
    (∀ (s : Settings) (rects : List (String × Rect)) (w h : ℚ) (st : FrameState) (lm : Hand),
      (processFrame s rects w h st (some lm)).cursor =
        some (((processFrame s rects w h st (some lm)).cursorAcc).getD (rawCursor lm w h))) ∧
    (∀ (s : Settings) (rects : List (String × Rect)) (w h : ℚ) (st : FrameState),
      (processFrame s rects w h st none).cursor = none) := by
  constructor
  · intro s rects w h st lm
    by_cases hu : (classify s lm).shouldUpdateCursor = true
    · simp [processFrame, hu]
    · rw [Bool.not_eq_true] at hu
      cases hacc : st.cursorAcc with
      | none => simp [processFrame, hu, hacc]
      | some a => simp [processFrame, hu, hacc]
  · intro s rects w h st
    rfl

/-- C3 counterexample: a pinch (CLICK) frame processed from a state whose
accumulator was never set displays the raw cursor position (500, 500), not
null, refuting "null if the accumulator has never been set and the current
mode is not MOVE". -/
theorem cursor_output_not_null_unset_acc :
    (processFrame defaultSettings [] 1000 1000 initState (some flatHand)).cursorAcc = none ∧
    (processFrame defaultSettings [] 1000 1000 initState (some flatHand)).gestureMode ≠
      GestureMode.move ∧
    (processFrame defaultSettings [] 1000 1000 initState (some flatHand)).cursor =
      some ⟨500, 500⟩ := by
  refine ⟨?_, ?_, ?_⟩
  · rw [processFrame_some_cursorAcc, classify_flatHand]
    rfl
  · rw [processFrame_some_gestureMode, classify_flatHand]
    decide
  · simp [processFrame, classify_flatHand, rawCursor, flatHand, initState]
    norm_num

/-- C5: the MOVE update computes acc + (raw - acc) * α per coordinate (with
α = 0.4 one update from (0,0) toward (100,0) gives (40,0)); an unset
accumulator is set directly to raw; a MOVE frame applies exactly this update;
and for α in (0,1] each update moves the accumulator toward raw without
overshoot: per coordinate the distance to raw never increases and the sign of
raw - acc never flips. -/
theorem smoothing_update_contract :
    (∀ (α : ℚ) (a raw : Point),
      smoothUpdate α (some a) raw =
        ⟨a.x + (raw.x - a.x) * α, a.y + (raw.y - a.y) * α⟩) ∧
    smoothUpdate (2/5) (some ⟨0, 0⟩) ⟨100, 0⟩ = ⟨40, 0⟩ ∧
    (∀ (α : ℚ) (raw : Point), smoothUpdate α none raw = raw) ∧
    (∀ (s : Settings) (rects : List (String × Rect)) (w h : ℚ) (st : FrameState) (lm : Hand),
      (processFrame s rects w h st (some lm)).gestureMode = GestureMode.move →
      (processFrame s rects w h st (some lm)).cursorAcc =
        some (smoothUpdate s.cursorSmoothing st.cursorAcc (rawCursor lm w h))) ∧
    (∀ (α : ℚ) (a raw : Point), 0 < α → α ≤ 1 →
      |raw.x - (smoothUpdate α (some a) raw).x| ≤ |raw.x - a.x| ∧
      |raw.y - (smoothUpdate α (some a) raw).y| ≤ |raw.y - a.y| ∧
      0 ≤ (raw.x - (smoothUpdate α (some a) raw).x) * (raw.x - a.x) ∧
      0 ≤ (raw.y - (smoothUpdate α (some a) raw).y) * (raw.y - a.y)) := by
  refine ⟨fun α a raw => rfl, ?_, fun α raw => rfl, ?_, ?_⟩
  · show smoothUpdate (2/5) (some ⟨0, 0⟩) ⟨100, 0⟩ = ⟨40, 0⟩
    simp only [smoothUpdate, Point.mk.injEq]
    norm_num
  · intro s rects w h st lm hmode
    have hupd : (classify s lm).shouldUpdateCursor = true :=
      (classify_update_iff s lm).2 hmode
    rw [processFrame_some_cursorAcc, hupd]
    rfl
  · intro α a raw h0 h1
    have habs : ∀ r c : ℚ, |r - (c + (r - c) * α)| ≤ |r - c| := by
      intro r c
      have key : r - (c + (r - c) * α) = (r - c) * (1 - α) := by ring
      rw [key, abs_mul, abs_of_nonneg (by linarith : (0:ℚ) ≤ 1 - α)]
      exact mul_le_of_le_one_right (abs_nonneg _) (by linarith)
    have hsgn : ∀ r c : ℚ, 0 ≤ (r - (c + (r - c) * α)) * (r - c) := by
      intro r c
      have key : r - (c + (r - c) * α) = (r - c) * (1 - α) := by ring
      rw [key]
      nlinarith [sq_nonneg (r - c)]
    exact ⟨habs raw.x a.x, habs raw.y a.y, hsgn raw.x a.x, hsgn raw.y a.y⟩

/-- Witness for C5: the α = 0.4 update from (0,0) toward (100,0) does not move
away from raw, and a concrete MOVE frame from an unset accumulator stores the
smoothed (here: raw) point. -/
theorem smoothing_update_contract_witness :
    |(Point.mk 100 0).x - (smoothUpdate (2/5) (some ⟨0, 0⟩) ⟨100, 0⟩).x| ≤
      |(Point.mk 100 0).x - (Point.mk 0 0).x| ∧
    (processFrame defaultSettings [] 1000 1000 initState (some openTestHand)).cursorAcc =
      some (smoothUpdate defaultSettings.cursorSmoothing initState.cursorAcc
        (rawCursor openTestHand 1000 1000)) :=
  ⟨(smoothing_update_contract.2.2.2.2 (2/5) ⟨0, 0⟩ ⟨100, 0⟩ (by norm_num) (by norm_num)).1,
    smoothing_update_contract.2.2.2.1 defaultSettings [] 1000 1000 initState openTestHand
      (by rw [processFrame_some_gestureMode, classify_openTestHand])⟩

/-- C6: the hit test returns the first rectangle, in the mapping's iteration
order, whose closed bounds contain the point (it agrees with `List.find?`);
with no containing rectangle it returns none; a point exactly on an edge
(x = left) counts as inside; and a no-landmark frame (null cursor) hovers no
key. -/
theorem hitTest_first_closed_match :
    (∀ (rects : List (String × Rect)) (p : Point),
      hitTest rects p = (rects.find? fun kr => containsB kr.2 p).map Prod.fst) ∧
    (∀ (rects : List (String × Rect)) (p : Point),
      (∀ kr ∈ rects, containsB kr.2 p = false) → hitTest rects p = none) ∧
    (∀ l r t b y : ℚ, l ≤ r → t ≤ y → y ≤ b → containsB ⟨l, r, t, b⟩ ⟨l, y⟩ = true) ∧
    (∀ (s : Settings) (rects : List (String × Rect)) (w h : ℚ) (st : FrameState),
      (processFrame s rects w h st none).hoveredKey = none) := by
  have hfind : ∀ (rects : List (String × Rect)) (p : Point),
      hitTest rects p = (rects.find? fun kr => containsB kr.2 p).map Prod.fst := by
    intro rects p
    induction rects with
    | nil => rfl
    | cons kr rest ih =>
      by_cases hc : containsB kr.2 p = true
      · simp [hitTest, hc, List.find?_cons_of_pos]
      · rw [Bool.not_eq_true] at hc
        simp [hitTest, hc, List.find?_cons_of_neg, ih]
  refine ⟨hfind, ?_, ?_, ?_⟩
  · intro rects p hall
    rw [hfind]
    have hnone : rects.find? (fun kr => containsB kr.2 p) = none :=
      List.find?_eq_none.2 fun kr hkr => by simp [hall kr hkr]
    rw [hnone]
    rfl
  · intro l r t b y h1 h2 h3
    simp only [containsB, decide_eq_true_eq]
    exact ⟨le_refl l, h1, h2, h3⟩
  · intro s rects w h st
    rfl

/-- Witness for C6: a point outside the single rectangle hits nothing, and a
point on the left edge of a rectangle is inside it. -/
theorem hitTest_first_closed_match_witness :
    hitTest [("a", ⟨0, 1, 0, 1⟩)] ⟨5, 5⟩ = none ∧
    containsB ⟨0, 10, 0, 10⟩ ⟨0, 5⟩ = true :=
  ⟨hitTest_first_closed_match.2.1 [("a", ⟨0, 1, 0, 1⟩)] ⟨5, 5⟩
      (by
        intro kr hkr
        simp only [List.mem_singleton] at hkr
        subst hkr
        simp [containsB]),
    hitTest_first_closed_match.2.2.1 0 10 0 10 5 (by norm_num) (by norm_num) (by norm_num)⟩

/-- C7: press effects on the text buffer — a single-character key appends its
label lowercased, backspace removes the last character and is a no-op on the
empty buffer, space appends a blank, enter appends a newline, clear empties
the buffer, shift is a no-op, and an unknown key id is a no-op. -/
theorem handleKeyPress_buffer_effects :
    handleKeyPress keyLabel "a" "" = "a" ∧
    handleKeyPress keyLabel "backspace" "hi" = "h" ∧
    handleKeyPress keyLabel "backspace" "" = "" ∧
    (∀ t, handleKeyPress keyLabel "backspace" t = t.dropRight 1) ∧
    (∀ t, handleKeyPress keyLabel "space" t = t ++ " ") ∧
    (∀ t, handleKeyPress keyLabel "enter" t = t ++ "\n") ∧
    (∀ t, handleKeyPress keyLabel "clear" t = "") ∧
    (∀ t, handleKeyPress keyLabel "shift" t = t) ∧
    (∀ (t keyId label : String),
      keyId ∉ ["backspace", "space", "enter", "clear", "ai-fix", "shift"] →
      keyLabel keyId = some label → label.length = 1 →
      handleKeyPress keyLabel keyId t = t ++ toLowerCase label) ∧
    (∀ (t keyId : String),
      keyId ∉ ["backspace", "space", "enter", "clear", "ai-fix", "shift"] →
      keyLabel keyId = none → handleKeyPress keyLabel keyId t = t) := by
  refine ⟨by decide, by decide, by decide, fun t => rfl, fun t => rfl, fun t => rfl,
    fun t => rfl, fun t => rfl, ?_, ?_⟩
  · intro t keyId label hmem hlab hlen
    simp only [List.mem_cons, List.not_mem_nil, or_false, not_or] at hmem
    obtain ⟨h1, h2, h3, h4, h5, h6⟩ := hmem
    simp only [handleKeyPress, if_neg h1, if_neg h2, if_neg h3, if_neg h4, if_neg h5,
      if_neg h6, hlab, if_pos hlen]
  · intro t keyId hmem hlab
    simp only [List.mem_cons, List.not_mem_nil, or_false, not_or] at hmem
    obtain ⟨h1, h2, h3, h4, h5, h6⟩ := hmem
    simp only [handleKeyPress, if_neg h1, if_neg h2, if_neg h3, if_neg h4, if_neg h5,
      if_neg h6, hlab]

/-- Witness for C7: pressing the 'q' key (label "Q") appends "q", and an id
with no rendered key leaves the buffer unchanged. -/
theorem handleKeyPress_buffer_effects_witness :
    handleKeyPress keyLabel "q" "hi" = "hi" ++ toLowerCase "Q" ∧
    handleKeyPress keyLabel "nokey" "hi" = "hi" :=
  ⟨handleKeyPress_buffer_effects.2.2.2.2.2.2.2.2.1 "hi" "q" "Q" (by decide) (by decide)
      (by decide),
    handleKeyPress_buffer_effects.2.2.2.2.2.2.2.2.2 "hi" "nokey" (by decide) (by decide)⟩

/-- C8: when the external text service is unavailable or fails — missing API
key, a thrown error, a missing response text, or a whitespace-only response
text — correctText returns its input unchanged and autocompleteText returns
the empty string.  Both are total String-valued functions (the thrown error is
consumed here), so no error reaches the caller. -/
theorem aiService_failure_fallback (apiKey : String) (outcome : ServiceOutcome)
    (text : String)
    (h : apiKey = "" ∨ outcome = Except.error () ∨ outcome = Except.ok none ∨
      ∃ s, outcome = Except.ok (some s) ∧ s.trim = "") :
    correctText apiKey outcome text = text ∧ autocompleteText apiKey outcome text = "" := by
  rcases h with h | h | h | ⟨s, hs, ht⟩
  · simp [correctText, autocompleteText, h]
  · subst h
    by_cases hk : apiKey = "" <;> simp [correctText, autocompleteText, hk]
  · subst h
    by_cases hk : apiKey = "" <;> simp [correctText, autocompleteText, hk]
  · subst hs
    by_cases hk : apiKey = "" <;> simp [correctText, autocompleteText, hk, ht]

/-- Witness for C8: with no API key the correction returns "cat" unchanged
and the completion returns the empty string. -/
theorem aiService_failure_fallback_witness :
    correctText "" (Except.ok (some "fixed")) "cat" = "cat" ∧
    autocompleteText "" (Except.ok (some "fixed")) "cat" = "" :=
  aiService_failure_fallback "" (Except.ok (some "fixed")) "cat" (Or.inl rfl)

/-- C9 (code bug): triggering ai-fix again while a correction request is
pending issues a second external request — the in-flight flag is set but never
consulted — and likewise for autocomplete: two back-to-back triggers with no
resolution in between issue two requests of that same action type. -/
theorem aiRequest_reissued_while_pending :
    (triggerAiFix "cat" (triggerAiFix "cat" ⟨false, 0, 0⟩)).issuedFixes = 2 ∧
    (triggerAiFix "cat" ⟨false, 0, 0⟩).isProcessingAI = true ∧
    (triggerAutocomplete (triggerAutocomplete ⟨false, 0, 0⟩)).issuedCompletions = 2 := by
  decide

/-- Press events distribute over appended event lists. -/
theorem pressCount_append (a b : List ClickEvent) :
    pressCount (a ++ b) = pressCount a + pressCount b :=
  List.countP_append _ _ _

/-- Release events distribute over appended event lists. -/
theorem releaseCount_append (a b : List ClickEvent) :
    releaseCount (a ++ b) = releaseCount a + releaseCount b :=
  List.countP_append _ _ _

/-- Counting helper: with a key hovered at every rising edge, the emitted
events contain one press per rising edge and one release per falling edge. -/
theorem edgeEvents_press_release_counts (frames : List (Bool × Option String)) :
    ∀ prev : Bool, hoverAtRising prev frames = true →
      pressCount (edgeEvents prev frames) = risingEdges prev (frames.map Prod.fst) ∧
      releaseCount (edgeEvents prev frames) = fallingEdges prev (frames.map Prod.fst) := by
  induction frames with
  | nil => intro prev _; exact ⟨rfl, rfl⟩
  | cons f rest ih =>
    intro prev hh
    obtain ⟨c, hov⟩ := f
    simp only [hoverAtRising] at hh
    rw [Bool.and_eq_true] at hh
    obtain ⟨ihp, ihr⟩ := ih c hh.2
    have hsplit : edgeEvents prev ((c, hov) :: rest) =
        edgeStepEvents prev c hov ++ edgeEvents c rest := rfl
    cases c with
    | true =>
      cases prev with
      | false =>
        cases hov with
        | none => simp at hh
        | some k =>
          exact ⟨by rw [hsplit, pressCount_append, ihp]; rfl,
            by rw [hsplit, releaseCount_append, ihr]; rfl⟩
      | true =>
        exact ⟨by rw [hsplit, pressCount_append, ihp]; rfl,
          by rw [hsplit, releaseCount_append, ihr]; rfl⟩
    | false =>
      cases prev with
      | false =>
        exact ⟨by rw [hsplit, pressCount_append, ihp]; rfl,
          by rw [hsplit, releaseCount_append, ihr]; rfl⟩
      | true =>
        exact ⟨by rw [hsplit, pressCount_append, ihp]; rfl,
          by rw [hsplit, releaseCount_append, ihr]; rfl⟩

/-- After leading true frames are dropped, counting rising edges from a true
previous value is counting them from false. -/
theorem risingEdges_true_dropWhile (bs : List Bool) :
    risingEdges true bs = risingEdges false (bs.dropWhile (· == true)) := by
  induction bs with
  | nil => rfl
  | cons b rest ih =>
    cases b with
    | true => simpa [risingEdges, List.dropWhile] using ih
    | false => simp [risingEdges, List.dropWhile]

/-- The number of maximal contiguous true-runs equals the number of rising
edges seen from an initially false signal. -/
theorem trueRuns_eq_risingEdges (bs : List Bool) : trueRuns bs = risingEdges false bs := by
  induction bs using trueRuns.induct with
  | case1 => simp [trueRuns, risingEdges]
  | case2 rest ih => simpa [trueRuns, risingEdges] using ih
  | case3 rest ih =>
    rw [trueRuns, ih, ← risingEdges_true_dropWhile]
    simp [risingEdges]

/-- C1 counterexample: a contiguous true-run of clicking during which no key is
hovered emits zero press events — not exactly one — while the falling edge
still emits its release. -/
theorem clickRun_press_missing_unhovered :
    pressCount (edgeEvents false [(true, none), (false, none)]) = 0 ∧
    trueRuns [true, false] = 1 ∧
    releaseCount (edgeEvents false [(true, none), (false, none)]) = 1 := by
  refine ⟨by decide, ?_, by decide⟩
  simp [trueRuns, List.dropWhile]

/-- C1 (amended): provided a key is hovered at every frame where clicking
rises, the edge detector emits exactly one press per contiguous true-run of
clicking regardless of run length (press count = number of maximal true-runs)
and exactly one release per false-run following a true-run (release count =
number of falling edges, each of which starts such a false-run); the sequence
false,true,true,true,false with a key hovered yields exactly
[press, release]. -/
theorem clickEdge_one_press_per_hovered_run (frames : List (Bool × Option String))
    (hh : hoverAtRising false frames = true) :
    pressCount (edgeEvents false frames) = trueRuns (frames.map Prod.fst) ∧
    releaseCount (edgeEvents false frames) = fallingEdges false (frames.map Prod.fst) ∧
    ∀ k : String,
      edgeEvents false
        [(false, some k), (true, some k), (true, some k), (true, some k), (false, some k)] =
        [ClickEvent.press k, ClickEvent.release] := by
  obtain ⟨hp, hr⟩ := edgeEvents_press_release_counts frames false hh
  exact ⟨by rw [hp, trueRuns_eq_risingEdges], hr, fun k => rfl⟩

/-- Witness for C1 (amended): the spec's example run, with key "a" hovered
throughout, emits one press (for one true-run) and the events are exactly
press then release. -/
theorem clickEdge_one_press_per_hovered_run_witness :
    pressCount (edgeEvents false [(false, some "a"), (true, some "a"), (true, some "a"),
      (true, some "a"), (false, some "a")]) = trueRuns [false, true, true, true, false] ∧
    edgeEvents false [(false, some "a"), (true, some "a"), (true, some "a"),
      (true, some "a"), (false, some "a")] = [ClickEvent.press "a", ClickEvent.release] := by
  have h := clickEdge_one_press_per_hovered_run
    [(false, some "a"), (true, some "a"), (true, some "a"), (true, some "a"),
      (false, some "a")] (by decide)
  exact ⟨h.1, h.2.2 "a"⟩

/-- C10: within one contiguous true-run of clicking at most one press fires,
and only at the rising-edge frame: frames where clicking stays true emit no
press whatever the hovered key does; a run that rises with no hovered key
emits no press at all, even if a key becomes hovered later in the same run;
and any press emitted by a single edge-detector step implies clicking is true
at that frame and was false at the previous one. -/
theorem clickEdge_press_only_on_rising :
    (∀ frames : List (Bool × Option String), (∀ f ∈ frames, f.1 = true) →
      pressCount (edgeEvents true frames) = 0) ∧
    (∀ rest : List (Bool × Option String), (∀ f ∈ rest, f.1 = true) →
      pressCount (edgeEvents false ((true, none) :: rest)) = 0) ∧
    (∀ (prev clicking : Bool) (hovered : Option String) (k : String),
      ClickEvent.press k ∈ edgeStepEvents prev clicking hovered →
      clicking = true ∧ prev = false) := by
  have hmid : ∀ frames : List (Bool × Option String), (∀ f ∈ frames, f.1 = true) →
      pressCount (edgeEvents true frames) = 0 := by
    intro frames
    induction frames with
    | nil => intro _; rfl
    | cons f rest ih =>
      intro hall
      obtain ⟨c, hov⟩ := f
      have hc : c = true := hall (c, hov) (List.mem_cons_self _ _)
      subst hc
      have hrest := ih fun g hg => hall g (List.mem_cons_of_mem _ hg)
      have hsplit : edgeEvents true ((true, hov) :: rest) =
          edgeStepEvents true true hov ++ edgeEvents true rest := rfl
      have hstep : edgeStepEvents true true hov = [] := rfl
      rw [hsplit, hstep, List.nil_append, hrest]
  refine ⟨hmid, ?_, ?_⟩
  · intro rest hall
    have hsplit : edgeEvents false ((true, none) :: rest) =
        edgeStepEvents false true none ++ edgeEvents true rest := rfl
    have hstep : edgeStepEvents false true none = [] := rfl
    rw [hsplit, hstep, List.nil_append, hmid rest hall]
  · intro prev clicking hovered k hmem
    cases prev <;> cases clicking <;> cases hovered <;>
      simp [edgeStepEvents] at hmem ⊢

/-- Witness for C10: a mid-run frame (clicking already true) with key "a"
hovered emits no press; a run rising unhovered then hovering "a" emits no
press; and a concrete rising-edge press implies the expected flag values. -/
theorem clickEdge_press_only_on_rising_witness :
    pressCount (edgeEvents true [(true, some "a")]) = 0 ∧
    pressCount (edgeEvents false [(true, none), (true, some "a")]) = 0 ∧
    (true = true ∧ false = false) :=
  ⟨clickEdge_press_only_on_rising.1 [(true, some "a")] (by decide),
    clickEdge_press_only_on_rising.2.1 [(true, some "a")] (by decide),
    clickEdge_press_only_on_rising.2.2 false true (some "a") "a" (by decide)⟩
